import Mathlib

/-!
Verification of the coinlib exchange-client library.

This file gives a shallow embedding of the request-signing and
response-normalization layer of the repository (the `Exchange` base class in
`core/exchange.py`, the `Bitfinex`/`Bittrex` clients in `exchanges/`, and the
`BitfinexClient`/`BitfinexV2Client` bindings in `coinlib/`), and proves or
refutes the behavioural properties stated in the design document.

Modelling conventions:

* Python byte strings are `List Nat` (byte values); `str.encode('utf-8')` is
  the function `utf8` below.
* Python dictionaries whose iteration order matters (payloads, headers, URL
  parameters) are association lists in insertion order; `dict.update` is
  `dictUpdate` (replace in place, append new keys), matching CPython.
* Exceptions are the `PyError` inductive; fallible code returns
  `Except PyError _`.
* Network I/O is made explicit: a method that may issue HTTP requests returns
  the would-be response's handling as a function of the response data, and
  each modelled call site carries a `Nat` counting the HTTP requests actually
  issued, so "fails before any network I/O" is `count = 0`.
* The HMAC primitives (`hashlib.sha384` / `hashlib.sha512` inside `hmac.new`)
  and `dateutil` date parsing are external libraries; the definitions are
  parameterized over them (`hmacSha384Hex`, `hmacSha512Hex`, `parseTs`), and
  the theorems hold for every instantiation.  Everything these claims say is
  about which key and which canonical message is fed to the primitive and
  where its digest is attached, which the embedding captures exactly.
* `time.time()` readings are nonnegative rationals (seconds); `int(...)`
  truncation toward zero is `pyInt`.
* `float(...)` values that are only constructed, compared and negated
  (prices, amounts, timestamps) are rationals.
-/

set_option maxRecDepth 4000

deriving instance DecidableEq for Except

namespace Coinlib

/-! ### Python-side primitives -/

/-- Byte strings (Python `bytes`) as lists of byte values. -/
abbrev Bytes := List Nat

/-- The exceptions raised by the code under study.
`requestFailedError` and `authenticationError` are declared in
`core/exchange.py`; `notAuthenticatedError` in `coinlib/bitfinex.py` and
`coinlib/bitfinex_v2.py`; the rest are Python builtins
(`requests.HTTPError` counts as `httpError`). -/
inductive PyError where
  | authenticationError (msg : String)
  | notAuthenticatedError
  | requestFailedError (msg : String)
  | httpError (msg : String)
  | valueError (msg : String)
  | attributeError (attr : String)
  | keyError (key : String)
  | typeError (msg : String)
  deriving DecidableEq, Repr

/-- UTF-8 encoding of a single character. -/
def utf8Char (c : Char) : Bytes :=
  let n := c.toNat
  if n < 128 then [n]
  else if n < 2048 then [192 + n / 64, 128 + n % 64]
  else if n < 65536 then [224 + n / 4096, 128 + n / 64 % 64, 128 + n % 64]
  else [240 + n / 262144, 128 + n / 4096 % 64, 128 + n / 64 % 64, 128 + n % 64]

/-- Python `s.encode('utf-8')`. -/
def utf8 (s : String) : Bytes := (s.data.map utf8Char).flatten

/-- A value that is either a Python `str` or a Python `bytes`. -/
inductive StrOrBytes where
  | str (s : String)
  | bytes (b : Bytes)
  deriving DecidableEq, Repr

/-- Python `x.encode('utf-8') if isinstance(x, str) else x`, the idiom used by
`Exchange.authenticate` and the `coinlib` client constructors. -/
def encodeIfStr : StrOrBytes → Bytes
  | .str s => utf8 s
  | .bytes b => b

/-- Display a byte string as text (used where the Python code puts a `bytes`
value into an HTTP header). -/
def asciiOfBytes (b : Bytes) : String := ⟨b.map Char.ofNat⟩

/-- Python `int()` truncation (toward zero) of a rational. -/
def pyInt (q : ℚ) : Int := q.num.tdiv q.den

/-! ### `core/crypto.py` -/

/-- Model of `crypto.nonce()` (and the identical `BitfinexClient._nonce`):
`str(int(time.time() * 1000000))`, as a function of the wall-clock reading
`t` (in seconds) at the moment of the call. -/
def nonce (t : ℚ) : String := toString (pyInt (t * 1000000))

/-- The integer value of the nonce string. -/
def nonceInt (t : ℚ) : Int := pyInt (t * 1000000)

/-! ### `core/exchange.py`: state and the authenticated front-end methods

The mutable attributes of an `Exchange` object.  `none` for a credential
means the attribute was never assigned (so reading it raises
`AttributeError`). -/

structure ExchangeState where
  authenticated : Bool
  apiKey : Option Bytes
  apiSecret : Option Bytes
  deriving DecidableEq, Repr

/-- The result of an operation that may issue HTTP requests: the value or
exception, paired with the number of HTTP requests issued. -/
abbrev NetResult (α : Type) := Except PyError α × Nat

/-- Model of `Exchange.balances`: guard, then delegate to the abstract `_balances`
(whose behaviour, an HTTP exchange, is the argument `d`). -/
def Exchange.balances (st : ExchangeState) (d : NetResult α) : NetResult α :=
  if !st.authenticated then
    (.error (.authenticationError "Client not authenticated"), 0)
  else d

/-- Model of `Exchange.place_order`: guard, validate `side` and `price`/`order_type`,
then delegate to the abstract `_place_order` `d`. -/
def Exchange.place_order (st : ExchangeState) (primary secondary side : String)
    (amount : ℚ) (price : Option ℚ) (order_type : String)
    (d : String → String → String → ℚ → Option ℚ → String → NetResult α) :
    NetResult α :=
  if !st.authenticated then
    (.error (.authenticationError "Client not authenticated"), 0)
  else if side ≠ "buy" ∧ side ≠ "sell" then
    (.error (.valueError "`side` param must be \"buy\" or \"sell\""), 0)
  else if order_type = "market" ∧ price.isSome then
    (.error (.valueError "Do not provide price for market orders"), 0)
  else d primary secondary side amount price order_type

/-- Model of `Exchange.cancel_order`. -/
def Exchange.cancel_order (st : ExchangeState) (order_id : Nat)
    (d : Nat → NetResult α) : NetResult α :=
  if !st.authenticated then
    (.error (.authenticationError "Client not authenticated"), 0)
  else d order_id

/-- Model of `Exchange.order_details`. -/
def Exchange.order_details (st : ExchangeState) (order_id : Nat)
    (d : Nat → NetResult α) : NetResult α :=
  if !st.authenticated then
    (.error (.authenticationError "Client not authenticated"), 0)
  else d order_id

/-- Model of `Exchange.active_orders`. -/
def Exchange.active_orders (st : ExchangeState) (d : NetResult α) : NetResult α :=
  if !st.authenticated then
    (.error (.authenticationError "Client not authenticated"), 0)
  else d

/-- Model of `Exchange.past_orders`. -/
def Exchange.past_orders (st : ExchangeState) (d : NetResult α) : NetResult α :=
  if !st.authenticated then
    (.error (.authenticationError "Client not authenticated"), 0)
  else d

/-! ### `coinlib/bitfinex_v2.py`: the `authenticated` decorator -/

/-- The mutable attributes of a `BitfinexV2Client`. -/
structure V2ClientState where
  authenticated : Bool
  apiKey : Option Bytes
  apiSecret : Option Bytes
  deriving DecidableEq, Repr

/-- The `authenticated` decorator of `coinlib/bitfinex_v2.py`: wraps an
endpoint method `f` so that an unauthenticated client raises
`NotAuthenticatedError` instead of reaching `f` (and hence before any HTTP
request of `f` is issued). -/
def authenticatedWrap (f : V2ClientState → NetResult α) (st : V2ClientState) :
    NetResult α :=
  if !st.authenticated then (.error .notAuthenticatedError, 0) else f st

/-! ### `core/exchange.py`: `authenticate` / `unauthenticate` -/

/-- Model of `Exchange.authenticate`: the result, the state after the call, and the
number of `_balances` probes issued.  `probe` is the behaviour of the
`self._balances()` call (an HTTP exchange). -/
def Exchange.authenticate (st : ExchangeState) (api_key api_secret : StrOrBytes)
    (probe : Except PyError α) : Except PyError Unit × ExchangeState × Nat :=
  if st.authenticated then
    (.error (.authenticationError "Already authenticated"), st, 0)
  else
    let st1 := { st with apiKey := some (encodeIfStr api_key),
                         apiSecret := some (encodeIfStr api_secret) }
    match probe with
    | .error (.requestFailedError _) =>
        (.error (.authenticationError "Invalid credentials"), st1, 1)
    | .error e => (.error e, st1, 1)
    | .ok _ => (.ok (), { st1 with authenticated := true }, 1)

/-- Model of `Exchange.unauthenticate`. -/
def Exchange.unauthenticate (st : ExchangeState) : ExchangeState :=
  { st with authenticated := false }

/-! ### Serialization helpers used by the signing code -/

/-- The base64 alphabet character for a 6-bit value. -/
def b64Char (n : Nat) : Char :=
  "ABCDEFGHIJKLMNOPQRSTUVWXYZabcdefghijklmnopqrstuvwxyz0123456789+/".data.getD n 'A'

/-- Python `base64.standard_b64encode` (result viewed as text; the encoded
form is pure ASCII). -/
def base64Encode : Bytes → String
  | [] => ""
  | [a] => ⟨[b64Char (a / 4), b64Char (a % 4 * 16), '=', '=']⟩
  | [a, b] => ⟨[b64Char (a / 4), b64Char (a % 4 * 16 + b / 16),
                b64Char (b % 16 * 4), '=']⟩
  | a :: b :: c :: rest =>
      (⟨[b64Char (a / 4), b64Char (a % 4 * 16 + b / 16),
         b64Char (b % 16 * 4 + c / 64), b64Char (c % 64)]⟩ : String)
        ++ base64Encode rest

/-- JSON string escaping (the payloads signed here contain no control
characters; quotes and backslashes are the escapes that can occur). -/
def jsonEscapeChar (c : Char) : List Char :=
  if c = '\\' then ['\\', '\\']
  else if c = '"' then ['\\', '"']
  else [c]

/-- A JSON string literal as `json.dumps` renders it. -/
def jsonQuote (s : String) : String :=
  "\"" ++ (⟨(s.data.map jsonEscapeChar).flatten⟩ : String) ++ "\""

/-- Python `json.dumps` on a `str -> str` dictionary, in insertion order,
with the default `", "` / `": "` separators. -/
def jsonDumps (d : List (String × String)) : String :=
  "\x7b" ++
    String.intercalate ", "
      (d.map fun kv => jsonQuote kv.1 ++ ": " ++ jsonQuote kv.2) ++
  "\x7d"

/-- Assignment `d[k] = v` on an insertion-ordered dictionary: replaces the
value in place if the key exists, appends otherwise (CPython semantics). -/
def dictSet (d : List (String × α)) (k : String) (v : α) : List (String × α) :=
  if (d.map Prod.fst).contains k then
    d.map fun kv => if kv.1 = k then (k, v) else kv
  else d ++ [(k, v)]

/-- Python `d.update(...)` with the updates in keyword order. -/
def dictUpdate (d upd : List (String × α)) : List (String × α) :=
  upd.foldl (fun acc kv => dictSet acc kv.1 kv.2) d

/-- Upper-case hex digit. -/
def hexDigitUpper (n : Nat) : Char := "0123456789ABCDEF".data.getD n '0'

/-- Percent-encoding of one byte as `urllib.parse.quote_plus` does it:
alphanumerics and `_.-~` unchanged, space becomes `+`, everything else
`%XX`. -/
def quotePlusByte (b : Nat) : String :=
  if b = 32 then "+"
  else if (48 ≤ b ∧ b ≤ 57) ∨ (65 ≤ b ∧ b ≤ 90) ∨ (97 ≤ b ∧ b ≤ 122)
      ∨ b = 95 ∨ b = 46 ∨ b = 45 ∨ b = 126 then
    ⟨[Char.ofNat b]⟩
  else "%" ++ (⟨[hexDigitUpper (b / 16), hexDigitUpper (b % 16)]⟩ : String)

/-- Python `urllib.parse.quote_plus` on a text value (UTF-8 encoded first). -/
def quotePlus (s : String) : String :=
  String.join ((utf8 s).map quotePlusByte)

/-- Applying `quote_plus` to a value that may be `str` or `bytes`. -/
def quotePlusValue (v : StrOrBytes) : String :=
  String.join ((encodeIfStr v).map quotePlusByte)

/-- Python `urllib.parse.urlencode` on a list of key/value pairs. -/
def urlencode (params : List (String × StrOrBytes)) : String :=
  String.intercalate "&"
    (params.map fun kv => quotePlus kv.1 ++ "=" ++ quotePlusValue kv.2)

/-- Python `sorted(params.items())` on a dictionary with distinct keys:
stable sort by key (with distinct keys the value component of the sort key
is never consulted). -/
def pySortedPairs (ps : List (String × StrOrBytes)) : List (String × StrOrBytes) :=
  ps.mergeSort (fun a b => decide (a.1 ≤ b.1))

/-! ### Signing helpers -/

/-- The mutable attributes of a `coinlib/bitfinex.py` `BitfinexClient`. -/
structure BitfinexClientState where
  authenticated : Bool
  apiKey : Option Bytes
  apiSecret : Option Bytes
  deriving DecidableEq, Repr

/-- Model of `BitfinexClient._sign` (`coinlib/bitfinex.py`), parameterized over the
HMAC-SHA384 hex-digest primitive `h384 : key -> msg -> hexdigest`. -/
def BitfinexClientSign (h384 : Bytes → Bytes → String)
    (st : BitfinexClientState) (payload : List (String × String)) :
    Except PyError (List (String × String)) :=
  if !st.authenticated then .ok []
  else
    match st.apiSecret, st.apiKey with
    | some secret, some key =>
      let json_payload := jsonDumps payload
      let data := base64Encode (utf8 json_payload)
      let signature := h384 secret (utf8 data)
      .ok [("x-bfx-apikey", asciiOfBytes key),
           ("x-bfx-payload", data),
           ("x-bfx-signature", signature)]
    | none, _ => .error (.attributeError "_api_secret")
    | _, none => .error (.attributeError "_api_key")

/-- The payload as `BitfinexClient._post_request` (and the identical
`exchanges/bitfinex.py` `Bitfinex._post_request`) extends it before signing:
`payload.update(nonce=..., request='/v1' + path)`. -/
def bitfinexPostPayload (payload : List (String × String))
    (nonceStr path : String) : List (String × String) :=
  dictUpdate payload [("nonce", nonceStr), ("request", "/v1" ++ path)]

/-- Model of `Bitfinex._sign` (`exchanges/bitfinex.py`): same signing computation,
but guarded by `if not self._api_key or not self._api_secret: return {}` —
it tests the credential attributes (which a never-authenticated client does
not have) instead of the `_authenticated` flag. -/
def bitfinexExchSign (h384 : Bytes → Bytes → String) (st : ExchangeState)
    (payload : List (String × String)) :
    Except PyError (List (String × String)) :=
  match st.apiKey with
  | none => .error (.attributeError "_api_key")
  | some key =>
    if key.isEmpty then .ok []
    else
      match st.apiSecret with
      | none => .error (.attributeError "_api_secret")
      | some secret =>
        if secret.isEmpty then .ok []
        else
          let json_payload := jsonDumps payload
          let data := base64Encode (utf8 json_payload)
          let signature := h384 secret (utf8 data)
          .ok [("x-bfx-apikey", asciiOfBytes key),
               ("x-bfx-payload", data),
               ("x-bfx-signature", signature)]

/-- Model of `BitfinexV2Client._headers` (`coinlib/bitfinex_v2.py`): signs
`'/api/' + path + nonce + json.dumps(body)` with HMAC-SHA384. -/
def BitfinexV2Headers (h384 : Bytes → Bytes → String) (st : V2ClientState)
    (nonceStr path : String) (body : List (String × String)) :
    Except PyError (List (String × String)) :=
  if !st.authenticated then .ok []
  else
    match st.apiSecret, st.apiKey with
    | some secret, some key =>
      let raw_body := jsonDumps body
      let msg := utf8 ("/api/" ++ path ++ nonceStr ++ raw_body)
      let signature := h384 secret msg
      .ok [("bfx-apikey", asciiOfBytes key),
           ("bfx-nonce", nonceStr),
           ("bfx-signature", signature),
           ("content-type", "application/json")]
    | none, _ => .error (.attributeError "_api_secret")
    | _, none => .error (.attributeError "_api_key")

/-- The base URL `https://bittrex.com/api/v1.1`. -/
def bittrexBaseUrl : String := "https://bittrex.com/api/v1.1"

/-- Model of `Bittrex._sign` (`exchanges/bittrex.py`): the raw HMAC-SHA512 hex digest
of the given path/URI under the stored secret.  It attaches no headers
itself. -/
def bittrexSign (h512 : Bytes → Bytes → String) (st : ExchangeState)
    (path : String) : Except PyError String :=
  match st.apiSecret with
  | none => .error (.attributeError "_api_secret")
  | some secret => .ok (h512 secret (utf8 path))

/-- The URI built by `Bittrex._signed_request` after
`params.update(nonce=..., apikey=self._api_key)`: base URL, path, and the
sorted, url-encoded parameters. -/
def bittrexSignedUri (key : Bytes) (path : String)
    (params : List (String × StrOrBytes)) (nonceStr : String) : String :=
  let ps := dictUpdate params [("nonce", .str nonceStr), ("apikey", .bytes key)]
  bittrexBaseUrl ++ path ++
    (if ps.isEmpty then "" else "?" ++ urlencode (pySortedPairs ps))

/-- The headers `Bittrex._signed_request` sends:
`{'apisign': self._sign(uri)}` — the signature is the only header; the API
key identifier travels inside the URI's query string. -/
def bittrexSignedHeaders (h512 : Bytes → Bytes → String) (st : ExchangeState)
    (path : String) (params : List (String × StrOrBytes)) (nonceStr : String) :
    Except PyError (List (String × String)) :=
  match st.apiKey with
  | none => .error (.attributeError "_api_key")
  | some key =>
    (bittrexSign h512 st (bittrexSignedUri key path params nonceStr)).map
      fun sig => [("apisign", sig)]

/-! ### JSON values and HTTP responses -/

/-- JSON values as returned by `response.json()`. -/
inductive Json where
  | jnull
  | jbool (b : Bool)
  | jnum (n : ℚ)
  | jstr (s : String)
  | jarr (xs : List Json)
  | jobj (fields : List (String × Json))

/-- Python subscripting `j[k]`: `KeyError` on a missing key, `TypeError`
when the value is not a dictionary. -/
def Json.getItem (j : Json) (k : String) : Except PyError Json :=
  match j with
  | .jobj fields =>
    match fields.lookup k with
    | some v => .ok v
    | none => .error (.keyError k)
  | _ => .error (.typeError "value is not subscriptable")

/-- Python truthiness of a JSON value (`if not response[...]`). -/
def Json.truthy : Json → Bool
  | .jnull => false
  | .jbool b => b
  | .jnum n => n ≠ 0
  | .jstr s => s ≠ ""
  | .jarr xs => !xs.isEmpty
  | .jobj fields => !fields.isEmpty

/-- The text of a JSON value used as an exception message.  The error
envelopes of both exchanges carry string messages, which is the case the
theorems instantiate. -/
def Json.asMessage : Json → String
  | .jstr s => s
  | _ => "<non-string message>"

/-- An HTTP response: status code and decoded JSON body. -/
structure HttpResponse where
  status : Nat
  body : Json

/-- The message `requests` builds for a non-2xx status. -/
def httpStatusMessage (status : Nat) : String :=
  if status < 500 then toString status ++ " Client Error"
  else toString status ++ " Server Error"

/-- Model of `requests.Response.raise_for_status`: raises `HTTPError` for
`400 <= status < 600`. -/
def raiseForStatus (r : HttpResponse) : Except PyError Unit :=
  if 400 ≤ r.status ∧ r.status < 600 then
    .error (.httpError (httpStatusMessage r.status))
  else .ok ()

/-- Response handling of `Bitfinex._get_request` (`exchanges/bitfinex.py`):
only a 400 status is mapped to `RequestFailedError`; every other 4xx/5xx
escapes as the transport's `HTTPError`. -/
def bitfinexGetResponse (r : HttpResponse) : Except PyError Json :=
  if r.status = 400 then
    match r.body.getItem "message" with
    | .error e => .error e
    | .ok m => .error (.requestFailedError m.asMessage)
  else
    match raiseForStatus r with
    | .error e => .error e
    | .ok _ => .ok r.body

/-- Response handling of `Bitfinex._post_request` (`exchanges/bitfinex.py`):
a 400 status raises `ValueError` (not `RequestFailedError`); every other
4xx/5xx escapes as `HTTPError`. -/
def bitfinexPostResponse (r : HttpResponse) : Except PyError Json :=
  if r.status = 400 then
    match r.body.getItem "message" with
    | .error e => .error e
    | .ok m => .error (.valueError m.asMessage)
  else
    match raiseForStatus r with
    | .error e => .error e
    | .ok _ => .ok r.body

/-- Response handling shared by `Bittrex._public_request` and
`Bittrex._signed_request` (`exchanges/bittrex.py`): any 4xx/5xx escapes as
`HTTPError`; a 2xx envelope with `success` falsy raises
`RequestFailedError` with the envelope's message; otherwise the `result`
field is returned. -/
def bittrexResponse (r : HttpResponse) : Except PyError Json :=
  match raiseForStatus r with
  | .error e => .error e
  | .ok _ =>
    match r.body.getItem "success" with
    | .error e => .error e
    | .ok s =>
      if !s.truthy then
        match r.body.getItem "message" with
        | .error e => .error e
        | .ok m => .error (.requestFailedError m.asMessage)
      else r.body.getItem "result"

/-- Does a call result carry `RequestFailedError`? -/
def isRequestFailedResult : Except PyError α → Bool
  | .error (.requestFailedError _) => true
  | _ => false

/-! ### Trade normalization (`Bitfinex.trades` / `Bittrex.trades`) -/

/-- A raw Bitfinex v1 trade, with the numeric fields already through
`float(...)` (rationals; `float` parsing of the decimal wire values
preserves their ordering and is not re-modelled). -/
structure BfxRawTrade where
  amount : ℚ
  price : ℚ
  type : String
  timestamp : ℚ
  deriving DecidableEq, Repr

/-- A raw Bittrex market-history entry.  `TimeStamp` is the ISO8601 text
that `_timestamp` (dateutil) turns into epoch seconds. -/
structure BittrexRawTrade where
  quantity : ℚ
  price : ℚ
  orderType : String
  timeStamp : String
  deriving DecidableEq, Repr

/-- A normalized trade record. -/
structure Trade where
  quantity : ℚ
  price : ℚ
  side : String
  timestamp : ℚ
  deriving DecidableEq, Repr

/-- Python `sorted(trades, key=lambda x: -x['timestamp'])`: a stable sort,
ascending in the key `-timestamp`.  Any stable sort computes the same list,
so CPython's Timsort is modelled by stable merge sort. -/
def pySortedByNegTimestamp (l : List Trade) : List Trade :=
  l.mergeSort (fun a b => decide (-a.timestamp ≤ -b.timestamp))

/-- Model of `Bitfinex.trades` (`exchanges/bitfinex.py`), from the raw list the
remote service returned (symbol validation and transport happen upstream of
this normalization). -/
def Bitfinex.trades (raw : List BfxRawTrade) : List Trade :=
  pySortedByNegTimestamp (raw.map fun t =>
    { quantity := t.amount, price := t.price, side := t.type,
      timestamp := t.timestamp })

/-- Model of `Bittrex.trades` (`exchanges/bittrex.py`), parameterized over the
`dateutil` timestamp parser. -/
def Bittrex.trades (parseTs : String → ℚ) (raw : List BittrexRawTrade) :
    List Trade :=
  pySortedByNegTimestamp (raw.map fun t =>
    { quantity := t.quantity, price := t.price, side := t.orderType.toLower,
      timestamp := parseTs t.timeStamp })

/-! ### `Bittrex._place_order` -/

/-- One entry of the cached `/public/getmarkets` table. -/
structure BittrexMarket where
  marketName : String
  minTradeSize : ℚ
  deriving DecidableEq, Repr

/-- Model of `Bittrex._make_symbol`. -/
def Bittrex.make_symbol (markets : List BittrexMarket)
    (primary secondary : String) : Except PyError String :=
  let symbol := primary.toUpper ++ "-" ++ secondary.toUpper
  if (markets.map (·.marketName)).contains symbol then .ok symbol
  else .error (.valueError ("Invalid pair " ++ primary ++ "/" ++ secondary))

/-- Model of `Bittrex._symbol_details`: `self._markets()[self._make_symbol(...)]`. -/
def Bittrex.symbol_details (markets : List BittrexMarket)
    (primary secondary : String) : Except PyError BittrexMarket :=
  match Bittrex.make_symbol markets primary secondary with
  | .error e => .error e
  | .ok symbol =>
    match markets.find? (·.marketName = symbol) with
    | some m => .ok m
    | none => .error (.keyError symbol)

/-- Model of `Bittrex._min_order_size`. -/
def Bittrex.min_order_size (markets : List BittrexMarket)
    (primary secondary : String) : Except PyError ℚ :=
  match Bittrex.symbol_details markets primary secondary with
  | .error e => .error e
  | .ok m => .ok m.minTradeSize

/-- A value in the order parameters dictionary. -/
inductive ParamVal where
  | vstr (s : String)
  | vnum (q : ℚ)
  | vnone
  deriving DecidableEq, Repr

/-- Model of `Bittrex._place_order` (`exchanges/bittrex.py`).  The market table is
the (cached) result of the public `getmarkets` request; `dSigned` is the
behaviour of `_signed_request`, and the `Nat` of the result counts the
signed requests issued by this call. -/
def Bittrex.place_order (markets : List BittrexMarket)
    (primary secondary side : String) (amount : ℚ) (price : Option ℚ)
    (order_type : String)
    (dSigned : String → List (String × ParamVal) → Except PyError Json) :
    NetResult Json :=
  match Bittrex.make_symbol markets primary secondary with
  | .error e => (.error e, 0)
  | .ok symbol =>
    match Bittrex.min_order_size markets primary secondary with
    | .error e => (.error e, 0)
    | .ok min_size =>
      if amount < min_size then
        (.error (.valueError ("Minimum order size is " ++ toString min_size)), 0)
      else if order_type ≠ "limit" then
        (.error (.valueError "Only limit orders are allowed"), 0)
      else
        let params := [("market", ParamVal.vstr symbol),
                       ("quantity", ParamVal.vnum amount),
                       ("rate", match price with
                                | some p => ParamVal.vnum p
                                | none => ParamVal.vnone)]
        let endpoint := if side = "buy" then "/market/buylimit"
                        else "/public/selllimit"
        (match dSigned endpoint params with
         | .error e => .error e
         | .ok j => j.getItem "uuid", 1)

/-! ### The operations of an `Exchange` client as a state machine (for the
credential-immutability property).  The query methods (`balances`,
`place_order`, …) read the state and call delegates that assign no
attribute, so they leave the client state unchanged; only `authenticate`
and `unauthenticate` write it. -/

inductive ExOp where
  | authenticateOp (api_key api_secret : StrOrBytes) (probe : Except PyError Unit)
  | unauthenticateOp
  | balancesOp
  | placeOrderOp (primary secondary side : String) (amount : ℚ)
      (price : Option ℚ) (order_type : String)
  | cancelOrderOp (order_id : Nat)
  | orderDetailsOp (order_id : Nat)
  | activeOrdersOp
  | pastOrdersOp
  deriving DecidableEq, Repr

/-- Effect of one operation on the client state. -/
def stepOp (st : ExchangeState) : ExOp → ExchangeState
  | .authenticateOp k s probe => (Exchange.authenticate st k s probe).2.1
  | .unauthenticateOp => Exchange.unauthenticate st
  | _ => st

/-- Run a sequence of operations. -/
def runOps (st : ExchangeState) (ops : List ExOp) : ExchangeState :=
  ops.foldl stepOp st

/-- Does a call result carry `ValueError`? -/
def isValueErrorResult : Except PyError α → Bool
  | .error (.valueError _) => true
  | _ => false

/-! ### Helper lemmas -/

/-- Lemma: `Bittrex._make_symbol` either returns the symbol or raises
`ValueError`. -/
theorem bittrex_make_symbol_shape (markets : List BittrexMarket)
    (primary secondary : String) :
    (∃ s, Bittrex.make_symbol markets primary secondary = .ok s) ∨
    (∃ m, Bittrex.make_symbol markets primary secondary
      = .error (.valueError m)) := by
  unfold Bittrex.make_symbol
  dsimp only
  split
  · exact .inl ⟨_, rfl⟩
  · exact .inr ⟨_, rfl⟩

/-- When the symbol is valid, the market-table lookup of
`_min_order_size` cannot fail. -/
theorem bittrex_min_order_size_of_make_symbol_ok
    {markets : List BittrexMarket} {primary secondary : String} {s : String}
    (hs : Bittrex.make_symbol markets primary secondary = .ok s) :
    ∃ q, Bittrex.min_order_size markets primary secondary = .ok q := by
  have hmem : ∃ m ∈ markets, m.marketName = s := by
    have hs2 := hs
    unfold Bittrex.make_symbol at hs2
    dsimp only at hs2
    split at hs2
    · next h =>
      obtain rfl : primary.toUpper ++ "-" ++ secondary.toUpper = s :=
        Except.ok.inj hs2
      obtain ⟨b, hb, hbeq⟩ := List.contains_iff_exists_mem_beq.mp h
      obtain ⟨m, hm, rfl⟩ := List.mem_map.mp hb
      exact ⟨m, hm, (beq_iff_eq.mp hbeq).symm⟩
    · next h => exact absurd hs2 (by simp)
  have hfind :
      (markets.find? (fun x => decide (x.marketName = s))).isSome = true := by
    rw [List.find?_isSome]
    obtain ⟨m, hm, hname⟩ := hmem
    exact ⟨m, hm, by simp [hname]⟩
  obtain ⟨m, hm⟩ := Option.isSome_iff_exists.mp hfind
  refine ⟨m.minTradeSize, ?_⟩
  unfold Bittrex.min_order_size Bittrex.symbol_details
  simp only [hs, hm]

/-! ### The claims -/

/-- C1: every authentication-guarded operation of the `Exchange` interface
(`balances`, `place_order`, `cancel_order`, `order_details`,
`active_orders`, `past_orders`) raises `AuthenticationError` on an
unauthenticated client, and every `@authenticated` Bitfinex v2 endpoint
raises `NotAuthenticatedError`, in each case before any HTTP request is
issued (the request count of the call is 0 and the delegate is never
reached). -/
theorem claim1_unauthenticated_fails_before_io {α : Type}
    (k0 s0 kv sv : Option Bytes) (d : NetResult α) (order_id : Nat)
    (dOrd : Nat → NetResult α) (primary secondary side : String) (amount : ℚ)
    (price : Option ℚ) (order_type : String)
    (dp : String → String → String → ℚ → Option ℚ → String → NetResult α)
    (f : V2ClientState → NetResult α) :
    Exchange.balances ⟨false, k0, s0⟩ d
      = (.error (.authenticationError "Client not authenticated"), 0)
    ∧ Exchange.place_order ⟨false, k0, s0⟩ primary secondary side amount
        price order_type dp
      = (.error (.authenticationError "Client not authenticated"), 0)
    ∧ Exchange.cancel_order ⟨false, k0, s0⟩ order_id dOrd
      = (.error (.authenticationError "Client not authenticated"), 0)
    ∧ Exchange.order_details ⟨false, k0, s0⟩ order_id dOrd
      = (.error (.authenticationError "Client not authenticated"), 0)
    ∧ Exchange.active_orders ⟨false, k0, s0⟩ d
      = (.error (.authenticationError "Client not authenticated"), 0)
    ∧ Exchange.past_orders ⟨false, k0, s0⟩ d
      = (.error (.authenticationError "Client not authenticated"), 0)
    ∧ authenticatedWrap f ⟨false, kv, sv⟩
      = (.error .notAuthenticatedError, 0) :=
  ⟨rfl, rfl, rfl, rfl, rfl, rfl, rfl⟩

/-- C6: `authenticate` stores the (encoded) credentials, issues exactly one
`_balances` probe, maps a `RequestFailedError` from the probe to
`AuthenticationError` (a distinct error kind), and marks the client
authenticated exactly when the probe succeeds. -/
theorem claim6_authenticate_probe (k0 s0 : Option Bytes)
    (api_key api_secret : StrOrBytes) :
    (∀ m : String,
      Exchange.authenticate ⟨false, k0, s0⟩ api_key api_secret
          (.error (.requestFailedError m) : Except PyError Unit)
        = (.error (.authenticationError "Invalid credentials"),
           ⟨false, some (encodeIfStr api_key), some (encodeIfStr api_secret)⟩,
           1))
    ∧ (Exchange.authenticate ⟨false, k0, s0⟩ api_key api_secret
          (.ok () : Except PyError Unit)
        = (.ok (),
           ⟨true, some (encodeIfStr api_key), some (encodeIfStr api_secret)⟩,
           1))
    ∧ (∀ probe : Except PyError Unit,
        ((Exchange.authenticate ⟨false, k0, s0⟩ api_key api_secret
            probe).2.1.authenticated = true
          ↔ probe = .ok ()))
    ∧ (∀ probe : Except PyError Unit,
        (Exchange.authenticate ⟨false, k0, s0⟩ api_key api_secret probe).2.2
          = 1)
    ∧ (∀ m m' : String,
        PyError.authenticationError m ≠ PyError.requestFailedError m') := by
  refine ⟨fun m => rfl, rfl, fun probe => ?_, fun probe => ?_,
    fun m m' => by simp⟩
  · match probe with
    | .ok () => simp [Exchange.authenticate]
    | .error e => cases e <;> simp [Exchange.authenticate]
  · match probe with
    | .ok () => rfl
    | .error e => cases e <;> rfl

/-- C9: on an authenticated client, `place_order` raises `ValueError` (with
no delegation and no network I/O) when `side` is not `buy`/`sell`, or when a
price is given for a market order; when both checks pass it returns exactly
what the exchange-specific `_place_order` returns. -/
theorem claim9_place_order_validation {α : Type} (k0 s0 : Option Bytes)
    (primary secondary side : String) (amount : ℚ) (price : Option ℚ)
    (order_type : String)
    (d : String → String → String → ℚ → Option ℚ → String → NetResult α) :
    (side ≠ "buy" → side ≠ "sell" →
      Exchange.place_order ⟨true, k0, s0⟩ primary secondary side amount price
          order_type d
        = (.error (.valueError "`side` param must be \"buy\" or \"sell\""), 0))
    ∧ ((side = "buy" ∨ side = "sell") → order_type = "market" →
        price.isSome = true →
      Exchange.place_order ⟨true, k0, s0⟩ primary secondary side amount price
          order_type d
        = (.error (.valueError "Do not provide price for market orders"), 0))
    ∧ ((side = "buy" ∨ side = "sell") →
        ¬(order_type = "market" ∧ price.isSome = true) →
      Exchange.place_order ⟨true, k0, s0⟩ primary secondary side amount price
          order_type d
        = d primary secondary side amount price order_type) := by
  refine ⟨fun h1 h2 => ?_, fun hs hm hp => ?_, fun hs hmp => ?_⟩
  · simp [Exchange.place_order, h1, h2]
  · rcases hs with h | h <;> simp [Exchange.place_order, h, hm, hp]
  · rcases hs with h | h <;>
      simp only [Exchange.place_order, h, Bool.not_true] <;>
      simp [hmp]

/-- C9 witness: all three branches exercised at concrete inputs. -/
theorem claim9_witness :
    Exchange.place_order ⟨true, some [1], some [2]⟩ "USD" "BTC" "hold" 1 none
        "limit" (fun _ _ _ _ _ _ => ((.ok 42 : Except PyError Nat), 1))
      = (.error (.valueError "`side` param must be \"buy\" or \"sell\""), 0)
    ∧ Exchange.place_order ⟨true, some [1], some [2]⟩ "USD" "BTC" "buy" 1
        (some 3) "market" (fun _ _ _ _ _ _ => ((.ok 42 : Except PyError Nat), 1))
      = (.error (.valueError "Do not provide price for market orders"), 0)
    ∧ Exchange.place_order ⟨true, some [1], some [2]⟩ "USD" "BTC" "buy" 1
        (some 3) "limit" (fun _ _ _ _ _ _ => ((.ok 42 : Except PyError Nat), 1))
      = ((.ok 42 : Except PyError Nat), 1) :=
  ⟨(claim9_place_order_validation (some [1]) (some [2]) "USD" "BTC" "hold" 1
      none "limit" _).1 (by decide) (by decide),
   (claim9_place_order_validation (some [1]) (some [2]) "USD" "BTC" "buy" 1
      (some 3) "market" _).2.1 (.inl rfl) rfl rfl,
   (claim9_place_order_validation (some [1]) (some [2]) "USD" "BTC" "buy" 1
      (some 3) "limit" _).2.2 (.inl rfl) (by decide)⟩

/-- C10: `Bittrex._place_order` raises `ValueError` for every order type
other than `limit`, without issuing any signed request. -/
theorem claim10_bittrex_limit_only (markets : List BittrexMarket)
    (primary secondary side : String) (amount : ℚ) (price : Option ℚ)
    (order_type : String)
    (dSigned : String → List (String × ParamVal) → Except PyError Json)
    (h : order_type ≠ "limit") :
    isValueErrorResult (Bittrex.place_order markets primary secondary side
        amount price order_type dSigned).1 = true
    ∧ (Bittrex.place_order markets primary secondary side amount price
        order_type dSigned).2 = 0 := by
  rcases bittrex_make_symbol_shape markets primary secondary with
    ⟨s, hs⟩ | ⟨m, hm⟩
  · obtain ⟨q, hq⟩ := bittrex_min_order_size_of_make_symbol_ok hs
    by_cases hlt : amount < q
    · constructor <;>
        simp [Bittrex.place_order, hs, hq, hlt, isValueErrorResult]
    · constructor <;>
        simp [Bittrex.place_order, hs, hq, hlt, h, isValueErrorResult]
  · constructor <;> simp [Bittrex.place_order, hm, isValueErrorResult]

/-- C10 witness: a market order on a valid pair is rejected with
`ValueError` and no signed request. -/
theorem claim10_witness :
    isValueErrorResult (Bittrex.place_order [⟨"USD-BTC", 1⟩] "usd" "btc"
        "buy" 5 none "market" (fun _ _ => .ok .jnull)).1 = true
    ∧ (Bittrex.place_order [⟨"USD-BTC", 1⟩] "usd" "btc" "buy" 5 none "market"
        (fun _ _ => .ok .jnull)).2 = 0 :=
  claim10_bittrex_limit_only [⟨"USD-BTC", 1⟩] "usd" "btc" "buy" 5 none
    "market" (fun _ _ => .ok .jnull) (by decide)

/-- C8 counterexample: after a successful `authenticate`, the sequence
`unauthenticate; authenticate(k2, s2)` replaces the stored key, so the
credentials are not immutable for the lifetime of the client. -/
theorem claim8_counterexample :
    (runOps ⟨false, none, none⟩
        [.authenticateOp (.str "k1") (.str "s1") (.ok ())]).apiKey
      = some (utf8 "k1")
    ∧ (runOps ⟨false, none, none⟩
        [.authenticateOp (.str "k1") (.str "s1") (.ok ())]).authenticated
      = true
    ∧ (runOps ⟨false, none, none⟩
        [.authenticateOp (.str "k1") (.str "s1") (.ok ()),
         .unauthenticateOp,
         .authenticateOp (.str "k2") (.str "s2") (.ok ())]).apiKey
      = some (utf8 "k2")
    ∧ some (utf8 "k2") ≠ some (utf8 "k1") := by
  refine ⟨rfl, rfl, rfl, by decide⟩

/-- C8 amended: as long as no `unauthenticate` occurs, an authenticated
client's state — in particular its stored API key and secret — is unchanged
by any sequence of operations (a repeated `authenticate` raises
`AuthenticationError` before touching the credentials). -/
theorem claim8_amended (st : ExchangeState) (h : st.authenticated = true)
    (ops : List ExOp) (hops : ExOp.unauthenticateOp ∉ ops) :
    runOps st ops = st := by
  induction ops with
  | nil => rfl
  | cons op rest ih =>
    have hop : op ≠ ExOp.unauthenticateOp := by
      intro he
      exact hops (he ▸ List.mem_cons_self op rest)
    have hstep : stepOp st op = st := by
      cases op with
      | authenticateOp k s probe => simp [stepOp, Exchange.authenticate, h]
      | unauthenticateOp => exact absurd rfl hop
      | balancesOp => rfl
      | placeOrderOp p s sd a pr ot => rfl
      | cancelOrderOp i => rfl
      | orderDetailsOp i => rfl
      | activeOrdersOp => rfl
      | pastOrdersOp => rfl
    have htail : runOps st rest = st :=
      ih (fun hm => hops (List.mem_cons_of_mem _ hm))
    calc runOps st (op :: rest) = runOps (stepOp st op) rest := rfl
    _ = runOps st rest := by rw [hstep]
    _ = st := htail

/-- C8 amended witness. -/
theorem claim8_amended_witness :
    runOps ⟨true, some (utf8 "key"), some (utf8 "secret")⟩
        [.balancesOp, .authenticateOp (.str "k2") (.str "s2") (.ok ()),
         .cancelOrderOp 7]
      = ⟨true, some (utf8 "key"), some (utf8 "secret")⟩ :=
  claim8_amended _ rfl _ (by decide)

/-- C2 counterexample: on an authenticated Bittrex client the signing path
attaches exactly one header, `apisign`, holding the HMAC digest; no header
carries the API key identifier (it travels as a query parameter of the URI
instead), so the claim that the attached headers contain the API key
identifier fails for Bittrex.  (The HMAC primitive is a concrete stand-in
function; the header names do not depend on it.) -/
theorem claim2_counterexample :
    bittrexSignedHeaders (fun _ _ => "sig")
        ⟨true, some (utf8 "KEY"), some (utf8 "SECRET")⟩
        "/account/getbalances" [] "12345"
      = .ok [("apisign", "sig")]
    ∧ "apisign" ≠ asciiOfBytes (utf8 "KEY")
    ∧ "sig" ≠ asciiOfBytes (utf8 "KEY") :=
  ⟨rfl, by decide, by decide⟩

/-- C2 amended: with credentials present, the Bitfinex v1 signing helper
attaches the API key identifier together with a signature that is the HMAC
(SHA-384) hex digest, keyed by the secret, of the canonical string
`base64(json(payload))` where the payload carries the nonce and the request
path — so the signature verifies against path+nonce+body under the shared
secret.  For Bittrex the signature is the HMAC (SHA-512) hex digest, keyed
by the secret, of the full request URI (which embeds the path, the nonce
and the API key as query parameters), but it is attached as the sole
`apisign` header: the API key identifier travels in the URI, not in a
header. -/
theorem claim2_amended (h384 h512 : Bytes → Bytes → String)
    (key secret : Bytes) (payload : List (String × String))
    (nonceStr path : String) (params : List (String × StrOrBytes)) :
    BitfinexClientSign h384 ⟨true, some key, some secret⟩
        (bitfinexPostPayload payload nonceStr path)
      = .ok [("x-bfx-apikey", asciiOfBytes key),
             ("x-bfx-payload",
              base64Encode (utf8 (jsonDumps
                (bitfinexPostPayload payload nonceStr path)))),
             ("x-bfx-signature",
              h384 secret (utf8 (base64Encode (utf8 (jsonDumps
                (bitfinexPostPayload payload nonceStr path))))))]
    ∧ bittrexSignedHeaders h512 ⟨true, some key, some secret⟩ path params
        nonceStr
      = .ok [("apisign",
              h512 secret (utf8 (bittrexSignedUri key path params
                nonceStr)))] :=
  ⟨rfl, rfl⟩

/-- C7 counterexample: on an `exchanges/bitfinex.py` client whose
credentials were never set (every client that has not gone through
`authenticate`), `_sign` does not return an empty header dictionary — it
raises `AttributeError` when reading `self._api_key`. -/
theorem claim7_counterexample :
    bitfinexExchSign (fun _ _ => "") ⟨false, none, none⟩ []
      = .error (.attributeError "_api_key")
    ∧ bitfinexExchSign (fun _ _ => "") ⟨false, none, none⟩ [] ≠ .ok [] :=
  ⟨rfl, by decide⟩

/-- C7 amended: the `coinlib` clients' signing helpers
(`BitfinexClient._sign`, `BitfinexV2Client._headers`) return an empty
header dictionary for every unauthenticated client.  The
`exchanges/bitfinex.py` `Bitfinex._sign` instead tests the credential
attributes: it returns an empty dictionary only when they are set and
falsy, raises `AttributeError` when they were never set, and produces full
signed headers whenever non-empty credentials are stored — regardless of
the `_authenticated` flag. -/
theorem claim7_amended (h384 : Bytes → Bytes → String) (k0 s0 s1 : Option Bytes)
    (payload body : List (String × String)) (nonceStr path : String) :
    BitfinexClientSign h384 ⟨false, k0, s0⟩ payload = .ok []
    ∧ BitfinexV2Headers h384 ⟨false, k0, s0⟩ nonceStr path body = .ok []
    ∧ bitfinexExchSign h384 ⟨false, none, s1⟩ payload
      = .error (.attributeError "_api_key")
    ∧ bitfinexExchSign h384 ⟨false, some [], s1⟩ payload = .ok []
    ∧ (∀ (key secret : Bytes) (auth : Bool), key ≠ [] → secret ≠ [] →
        bitfinexExchSign h384 ⟨auth, some key, some secret⟩ payload
          = .ok [("x-bfx-apikey", asciiOfBytes key),
                 ("x-bfx-payload", base64Encode (utf8 (jsonDumps payload))),
                 ("x-bfx-signature",
                  h384 secret (utf8 (base64Encode (utf8
                    (jsonDumps payload)))))]) := by
  refine ⟨rfl, rfl, rfl, rfl, fun key secret auth hk hs => ?_⟩
  match key, hk with
  | k :: ks, _ =>
    match secret, hs with
    | s :: ss, _ => rfl

/-- C7 amended witness: a non-empty key/secret pair on an unauthenticated
`exchanges` client still yields full signed headers. -/
theorem claim7_amended_witness :
    bitfinexExchSign (fun _ _ => "s") ⟨false, some [75], some [83]⟩ []
      = .ok [("x-bfx-apikey", asciiOfBytes [75]),
             ("x-bfx-payload", base64Encode (utf8 (jsonDumps []))),
             ("x-bfx-signature", "s")] :=
  (claim7_amended (fun _ _ => "s") none none none [] [] "" "").2.2.2.2
    [75] [83] false (by decide) (by decide)

/-- C5 counterexample: a 400 response to a Bitfinex POST endpoint (for
example `/order/new` answering with an error message) is surfaced as
`ValueError`, not as the normalized `RequestFailedError`. -/
theorem claim5_counterexample :
    bitfinexPostResponse ⟨400, .jobj [("message", .jstr "Unknown symbol")]⟩
      = .error (.valueError "Unknown symbol")
    ∧ isRequestFailedResult
        (bitfinexPostResponse ⟨400, .jobj [("message", .jstr "Unknown symbol")]⟩)
      = false :=
  ⟨rfl, rfl⟩

/-- C5 amended: only two remote-failure shapes are normalized to
`RequestFailedError` — a 400 status on a Bitfinex GET request and a 2xx
`success=false` envelope on Bittrex — in both cases carrying the remote
message.  A 400 on a Bitfinex POST raises `ValueError`, and every other
4xx/5xx status escapes as the transport's `HTTPError` on all request
paths. -/
theorem claim5_amended (r : HttpResponse) (v : Json) :
    (r.status = 400 → r.body.getItem "message" = .ok v →
      bitfinexGetResponse r = .error (.requestFailedError v.asMessage))
    ∧ (400 < r.status → r.status < 600 →
      bitfinexGetResponse r = .error (.httpError (httpStatusMessage r.status)))
    ∧ (r.status = 400 → r.body.getItem "message" = .ok v →
      bitfinexPostResponse r = .error (.valueError v.asMessage))
    ∧ (400 < r.status → r.status < 600 →
      bitfinexPostResponse r
        = .error (.httpError (httpStatusMessage r.status)))
    ∧ (r.status < 400 → r.body.getItem "success" = .ok (.jbool false) →
        r.body.getItem "message" = .ok v →
      bittrexResponse r = .error (.requestFailedError v.asMessage))
    ∧ (400 ≤ r.status → r.status < 600 →
      bittrexResponse r = .error (.httpError (httpStatusMessage r.status))) := by
  refine ⟨fun h400 hmsg => ?_, fun hlo hhi => ?_, fun h400 hmsg => ?_,
    fun hlo hhi => ?_, fun hlt hsucc hmsg => ?_, fun hlo hhi => ?_⟩
  · simp [bitfinexGetResponse, h400, hmsg]
  · have hne : r.status ≠ 400 := by omega
    have hc : 400 ≤ r.status ∧ r.status < 600 := ⟨by omega, hhi⟩
    simp [bitfinexGetResponse, hne, raiseForStatus, hc]
  · simp [bitfinexPostResponse, h400, hmsg]
  · have hne : r.status ≠ 400 := by omega
    have hc : 400 ≤ r.status ∧ r.status < 600 := ⟨by omega, hhi⟩
    simp [bitfinexPostResponse, hne, raiseForStatus, hc]
  · have hc : ¬(400 ≤ r.status ∧ r.status < 600) := by omega
    simp [bittrexResponse, raiseForStatus, hc, hsucc, hmsg, Json.truthy]
  · have hc : 400 ≤ r.status ∧ r.status < 600 := ⟨hlo, hhi⟩
    simp [bittrexResponse, raiseForStatus, hc]

/-- C5 amended witness: all six response shapes at concrete responses. -/
theorem claim5_amended_witness :
    bitfinexGetResponse ⟨400, .jobj [("message", .jstr "bad")]⟩
      = .error (.requestFailedError "bad")
    ∧ bitfinexGetResponse ⟨500, .jobj [("message", .jstr "bad")]⟩
      = .error (.httpError (httpStatusMessage 500))
    ∧ bitfinexPostResponse ⟨400, .jobj [("message", .jstr "bad")]⟩
      = .error (.valueError "bad")
    ∧ bitfinexPostResponse ⟨500, .jobj [("message", .jstr "bad")]⟩
      = .error (.httpError (httpStatusMessage 500))
    ∧ bittrexResponse ⟨200, .jobj [("success", .jbool false),
        ("message", .jstr "bad")]⟩
      = .error (.requestFailedError "bad")
    ∧ bittrexResponse ⟨503, .jobj [("success", .jbool false),
        ("message", .jstr "bad")]⟩
      = .error (.httpError (httpStatusMessage 503)) :=
  ⟨(claim5_amended ⟨400, .jobj [("message", .jstr "bad")]⟩ (.jstr "bad")).1
      rfl rfl,
   (claim5_amended ⟨500, .jobj [("message", .jstr "bad")]⟩ (.jstr "bad")).2.1
      (by decide) (by decide),
   (claim5_amended ⟨400, .jobj [("message", .jstr "bad")]⟩ (.jstr "bad")).2.2.1
      rfl rfl,
   (claim5_amended ⟨500, .jobj [("message", .jstr "bad")]⟩
      (.jstr "bad")).2.2.2.1 (by decide) (by decide),
   (claim5_amended ⟨200, .jobj [("success", .jbool false),
      ("message", .jstr "bad")]⟩ (.jstr "bad")).2.2.2.2.1 (by decide) rfl rfl,
   (claim5_amended ⟨503, .jobj [("success", .jbool false),
      ("message", .jstr "bad")]⟩ (.jstr "bad")).2.2.2.2.2 (by decide)
      (by decide)⟩

/-- The library's descending-by-timestamp sort really sorts. -/
theorem pySortedByNegTimestamp_sorted (l : List Trade) :
    List.Sorted (fun a b : Trade => b.timestamp ≤ a.timestamp)
      (pySortedByNegTimestamp l) := by
  have htrans : ∀ a b c : Trade,
      (fun a b : Trade => decide (-a.timestamp ≤ -b.timestamp)) a b →
      (fun a b : Trade => decide (-a.timestamp ≤ -b.timestamp)) b c →
      (fun a b : Trade => decide (-a.timestamp ≤ -b.timestamp)) a c := by
    intro a b c hab hbc
    simp only [decide_eq_true_eq] at *
    exact le_trans hab hbc
  have htotal : ∀ a b : Trade,
      ((fun a b : Trade => decide (-a.timestamp ≤ -b.timestamp)) a b ||
       (fun a b : Trade => decide (-a.timestamp ≤ -b.timestamp)) b a) := by
    intro a b
    simp only [Bool.or_eq_true, decide_eq_true_eq]
    exact le_total _ _
  have h := List.sorted_mergeSort htrans htotal l
  unfold List.Sorted
  refine h.imp ?_
  intro a b hab
  simp only [decide_eq_true_eq, neg_le_neg_iff] at hab
  exact hab

/-- C4: for every raw trade list, in any order, the normalized trade list
of `Bitfinex.trades` and of `Bittrex.trades` is sorted by timestamp in
descending order (most recent first). -/
theorem claim4_trades_sorted_descending (raw : List BfxRawTrade)
    (parseTs : String → ℚ) (rawB : List BittrexRawTrade) :
    List.Sorted (fun a b : Trade => b.timestamp ≤ a.timestamp)
      (Bitfinex.trades raw)
    ∧ List.Sorted (fun a b : Trade => b.timestamp ≤ a.timestamp)
      (Bittrex.trades parseTs rawB) :=
  ⟨pySortedByNegTimestamp_sorted _, pySortedByNegTimestamp_sorted _⟩

/-- For a nonnegative clock reading, Python `int()` truncation agrees with
the floor. -/
theorem pyInt_eq_floor {q : ℚ} (h : 0 ≤ q) : pyInt q = ⌊q⌋ := by
  rw [Rat.floor_def]
  unfold pyInt
  exact Int.tdiv_eq_ediv (Rat.num_nonneg.mpr h) (Int.ofNat_nonneg _)

/-- C3 counterexample: two successive calls to the nonce helper with the
wall clock strictly advanced (by half a microsecond) return the same nonce
string — the nonce is not strictly increasing call-to-call. -/
theorem claim3_counterexample :
    (1 : ℚ) < 2000001 / 2000000
    ∧ nonce 1 = nonce (2000001 / 2000000) := by
  constructor
  · norm_num
  · have h1 : pyInt ((1 : ℚ) * 1000000) = 1000000 := by
      rw [pyInt_eq_floor (by norm_num),
        show ((1 : ℚ) * 1000000) = ((1000000 : ℤ) : ℚ) by norm_num,
        Int.floor_intCast]
    have h2 : pyInt ((2000001 / 2000000 : ℚ) * 1000000) = 1000000 := by
      rw [pyInt_eq_floor (by norm_num),
        show ((2000001 / 2000000 : ℚ) * 1000000) = (2000001 : ℚ) / 2 by
          norm_num]
      refine Int.floor_eq_iff.mpr ⟨by norm_num, by norm_num⟩
    unfold nonce
    rw [h1, h2]

/-- C3 amended: the nonce is the truncated microsecond reading of the wall
clock, hence non-decreasing (not strictly increasing) as a function of the
clock: later calls never return a smaller nonce, and calls within the same
microsecond return an equal one. -/
theorem claim3_amended (t1 t2 : ℚ) (h0 : 0 ≤ t1) (h12 : t1 ≤ t2) :
    nonceInt t1 ≤ nonceInt t2 := by
  have h1 : (0 : ℚ) ≤ t1 * 1000000 := mul_nonneg h0 (by norm_num)
  have h2 : (0 : ℚ) ≤ t2 * 1000000 := mul_nonneg (h0.trans h12) (by norm_num)
  unfold nonceInt
  rw [pyInt_eq_floor h1, pyInt_eq_floor h2]
  exact Int.floor_le_floor (mul_le_mul_of_nonneg_right h12 (by norm_num))

/-- C3 amended witness. -/
theorem claim3_amended_witness : nonceInt 1 ≤ nonceInt 2 :=
  claim3_amended 1 2 zero_le_one one_le_two

end Coinlib
